import Mathlib

/-!
Verification of the TruckParking Optimizer core (models, compliance checker,
lane generator, candidate generator and greedy selection solver) against its
natural-language specification.  Python floats are modelled as rationals; the
geometric point sets produced by the external geometry library are modelled as
subsets of the real plane.
-/

namespace TruckParking

/-- Label code for a space type, mirroring the literal map used in
models.ParkingSpace.__post_init__ (default code S for unknown types). -/
def typeTag (t : String) : String :=
  if t = "truck" then "T"
  else if t = "tractor" then "TR"
  else if t = "trailer" then "TL"
  else if t = "ev" then "EV"
  else if t = "van" then "V"
  else "S"

/-- A parking space, mirroring models.ParkingSpace. -/
structure ParkingSpace where
  id : Int
  type : String
  x : ℚ
  y : ℚ
  length : ℚ
  width : ℚ
  rotation : ℚ
  label : String
  deriving DecidableEq

/-- Constructor for ParkingSpace applying the __post_init__ logic of
models.ParkingSpace: an empty label is replaced by the generated one. -/
def mkParkingSpace (id : Int) (type : String) (x y length width rotation : ℚ)
    (label : String) : ParkingSpace :=
  { id := id, type := type, x := x, y := y, length := length, width := width,
    rotation := rotation,
    label := if label = "" then typeTag type ++ "-" ++ toString id else label }

/-- A driving lane, mirroring models.Lane. -/
structure Lane where
  id : String
  type : String
  width : ℚ
  path : List (ℚ × ℚ)
  deriving DecidableEq

/-- The serialized record of a parking space: the field-by-field dictionary
produced by ParkingSpace.to_dict (dataclasses.asdict). -/
structure SpaceDict where
  id : Int
  type : String
  x : ℚ
  y : ℚ
  length : ℚ
  width : ℚ
  rotation : ℚ
  label : String
  deriving DecidableEq

/-- ParkingSpace.to_dict. -/
def spaceToDict (s : ParkingSpace) : SpaceDict :=
  { id := s.id, type := s.type, x := s.x, y := s.y, length := s.length,
    width := s.width, rotation := s.rotation, label := s.label }

/-- ParkingSpace.from_dict: reconstructs the dataclass from the record,
running __post_init__ again. -/
def spaceFromDict (d : SpaceDict) : ParkingSpace :=
  mkParkingSpace d.id d.type d.x d.y d.length d.width d.rotation d.label

/-- The serialized record of a lane (Lane.to_dict). -/
structure LaneDict where
  id : String
  type : String
  width : ℚ
  path : List (ℚ × ℚ)
  deriving DecidableEq

/-- Lane.to_dict. -/
def laneToDict (l : Lane) : LaneDict :=
  { id := l.id, type := l.type, width := l.width, path := l.path }

/-- Lane.from_dict: the path entries are re-converted to pairs (the Python
code maps tuple over them, the identity in this model). -/
def laneFromDict (d : LaneDict) : Lane :=
  { id := d.id, type := d.type, width := d.width, path := d.path.map (fun p => p) }

/-- Default triangular boundary installed by Layout.__post_init__ when the
boundary list is empty. -/
def defaultBoundary : List (ℚ × ℚ) := [(0, 0), (27, 0), (74, 145), (0, 145)]

/-- A complete parking lot layout, mirroring models.Layout. -/
structure Layout where
  name : String
  lotWidth : ℚ
  lotLength : ℚ
  spaces : List ParkingSpace
  lanes : List Lane
  boundary : List (ℚ × ℚ)
  created : String
  description : String
  deriving DecidableEq

/-- Constructor for Layout applying models.Layout.__post_init__: an empty
created date is replaced by the current date (passed here as the argument
now, since the embedding is pure) and an empty boundary by the default
triangle. -/
def mkLayout (now : String) (name : String) (lotWidth lotLength : ℚ)
    (spaces : List ParkingSpace) (lanes : List Lane)
    (boundary : List (ℚ × ℚ)) (created description : String) : Layout :=
  { name := name, lotWidth := lotWidth, lotLength := lotLength,
    spaces := spaces, lanes := lanes,
    boundary := if boundary = [] then defaultBoundary else boundary,
    created := if created = "" then now else created,
    description := description }

/-- The serialized record of a layout: the nested dictionary produced by
Layout.to_dict, with the lot block flattened into its three fields. -/
structure LayoutDict where
  name : String
  created : String
  description : String
  lotWidth : ℚ
  lotLength : ℚ
  boundary : List (ℚ × ℚ)
  spaces : List SpaceDict
  lanes : List LaneDict
  deriving DecidableEq

/-- Layout.to_dict. -/
def layoutToDict (L : Layout) : LayoutDict :=
  { name := L.name, created := L.created, description := L.description,
    lotWidth := L.lotWidth, lotLength := L.lotLength, boundary := L.boundary,
    spaces := L.spaces.map spaceToDict, lanes := L.lanes.map laneToDict }

/-- Layout.from_dict, deserializing the record (the current date is passed
as the argument now for the __post_init__ default). -/
def layoutFromDict (now : String) (d : LayoutDict) : Layout :=
  mkLayout now d.name d.lotWidth d.lotLength
    (d.spaces.map spaceFromDict) (d.lanes.map laneFromDict)
    (d.boundary.map (fun p => p)) d.created d.description

/-- The serialization-relevant tuple of a space named by the round-trip
property: type, position, size and rotation. -/
def spaceTuple (s : ParkingSpace) : String × ℚ × ℚ × ℚ × ℚ × ℚ :=
  (s.type, s.x, s.y, s.length, s.width, s.rotation)

/-- C4: deserializing the serialized form of any layout yields a layout with
the same number of spaces, identical (type, x, y, length, width, rotation)
tuples for the spaces in the same order, and identical lane paths. -/
theorem serialize_roundtrip (L : Layout) (now : String) :
    (layoutFromDict now (layoutToDict L)).spaces.length = L.spaces.length ∧
    (layoutFromDict now (layoutToDict L)).spaces.map spaceTuple
      = L.spaces.map spaceTuple ∧
    (layoutFromDict now (layoutToDict L)).lanes.map Lane.path
      = L.lanes.map Lane.path := by
  have hs : (layoutFromDict now (layoutToDict L)).spaces
      = L.spaces.map (fun s => spaceFromDict (spaceToDict s)) := by
    simp [layoutFromDict, layoutToDict, mkLayout]
  have hl : (layoutFromDict now (layoutToDict L)).lanes
      = L.lanes.map (fun l => laneFromDict (laneToDict l)) := by
    simp [layoutFromDict, layoutToDict, mkLayout]
  refine ⟨?_, ?_, ?_⟩
  · rw [hs, List.length_map]
  · rw [hs, List.map_map]
    refine List.map_congr_left (fun s _ => ?_)
    simp only [Function.comp, spaceFromDict, spaceToDict, mkParkingSpace,
      spaceTuple]
  · rw [hl, List.map_map]
    refine List.map_congr_left (fun l _ => ?_)
    simp [Function.comp, laneFromDict, laneToDict]

/-- Round-trip witness at a concrete layout: the theorem applied to a
one-space, one-lane layout. -/
theorem serialize_roundtrip_witness :
    (layoutFromDict "2026-01-01" (layoutToDict
        { name := "demo", lotWidth := 50, lotLength := 100,
          spaces := [mkParkingSpace 1 "truck" 0 0 10 3 0 ""],
          lanes := [{ id := "main", type := "oneway", width := 6,
                      path := [(25, 0), (25, 100)] }],
          boundary := [(0, 0), (50, 0), (50, 100), (0, 100)],
          created := "2025-12-31", description := "" })).spaces.map spaceTuple
      = [("truck", 0, 0, 10, 3, 0)] :=
  ((serialize_roundtrip _ "2026-01-01").2.1).trans (by decide)

/-! ## Compliance checker (src/compliance.py)

The compliance configuration values (minimum vehicle spacing, maximum fire
access distance) are read by the source from a data file that is not part of
the sources; they are passed here as explicit arguments.  The spec gives the
defaults used in the concrete evaluations below (spacing 1, fire access 10).
-/

/-- A compliance violation, mirroring compliance.Violation. -/
structure Violation where
  severity : String
  category : String
  message : String
  spaceIds : List Int
  location : Option (ℚ × ℚ)
  deriving DecidableEq

/-- compliance.rectangles_overlap: the axis-aligned box test over the
unrotated footprints of the two spaces, with the first box expanded by the
minimum gap. -/
def rectanglesOverlapComp (r1 r2 : ParkingSpace) (minGap : ℚ) : Bool :=
  let r1Left := r1.x - minGap
  let r1Right := r1.x + r1.length + minGap
  let r1Bottom := r1.y - minGap
  let r1Top := r1.y + r1.width + minGap
  let r2Left := r2.x
  let r2Right := r2.x + r2.length
  let r2Bottom := r2.y
  let r2Top := r2.y + r2.width
  if r1Right ≤ r2Left ∨ r2Right ≤ r1Left then false
  else if r1Top ≤ r2Bottom ∨ r2Top ≤ r1Bottom then false
  else true

/-- The violations emitted by compliance.check_spacing for one pair of
spaces: an error when the footprints overlap with no gap, else a warning
when they overlap with the minimum-spacing gap added. -/
def spacingViolations (minSpacing : ℚ) (s1 s2 : ParkingSpace) : List Violation :=
  if rectanglesOverlapComp s1 s2 0 then
    [{ severity := "error", category := "spacing",
       message := "Spaces " ++ s1.label ++ " and " ++ s2.label ++ " overlap",
       spaceIds := [s1.id, s2.id],
       location := some ((s1.x + s2.x) / 2, (s1.y + s2.y) / 2) }]
  else if rectanglesOverlapComp s1 s2 minSpacing then
    [{ severity := "warning", category := "spacing",
       message := "Spaces " ++ s1.label ++ " and " ++ s2.label
         ++ " have less than minimum spacing",
       spaceIds := [s1.id, s2.id],
       location := some ((s1.x + s2.x) / 2, (s1.y + s2.y) / 2) }]
  else []

/-- The ordered index pairs (i, j) with i < j visited by the nested loops of
compliance.check_spacing, in visiting order. -/
def orderedPairs : List α → List (α × α)
  | [] => []
  | a :: rest => rest.map (fun b => (a, b)) ++ orderedPairs rest

/-- The id-based deduplication key of compliance.check_spacing. -/
def pairKey (s1 s2 : ParkingSpace) : Int × Int :=
  (min s1.id s2.id, max s1.id s2.id)

/-- The pair loop of compliance.check_spacing with its checked-pairs set. -/
def checkSpacingAux (minSpacing : ℚ) :
    List (ParkingSpace × ParkingSpace) → List (Int × Int) → List Violation
  | [], _ => []
  | (s1, s2) :: rest, checked =>
    if pairKey s1 s2 ∈ checked then checkSpacingAux minSpacing rest checked
    else
      spacingViolations minSpacing s1 s2
        ++ checkSpacingAux minSpacing rest (pairKey s1 s2 :: checked)

/-- compliance.check_spacing. -/
def checkSpacing (minSpacing : ℚ) (spaces : List ParkingSpace) : List Violation :=
  checkSpacingAux minSpacing (orderedPairs spaces) []

/-- compliance.check_boundary: the axis-aligned bounds test over the
unrotated footprint of the space against the lot extents (the boundary
polygon argument is unused by the source). -/
def checkBoundary (space : ParkingSpace) (_boundary : List (ℚ × ℚ))
    (lotWidth lotLength : ℚ) : List Violation :=
  (if space.x < 0 ∨ space.y < 0 then
    [{ severity := "error", category := "boundary",
       message := "Space " ++ space.label
         ++ " is outside lot boundary with negative coordinates",
       spaceIds := [space.id], location := some (space.x, space.y) }]
  else []) ++
  (if lotWidth < space.x + space.length ∨ lotLength < space.y + space.width then
    [{ severity := "error", category := "boundary",
       message := "Space " ++ space.label ++ " extends beyond lot boundary",
       spaceIds := [space.id], location := some (space.x, space.y) }]
  else [])

/-- compliance.check_fire_access: warns when the center of a space is
farther than the maximum distance from each of the four sides of the
axis-aligned lot box (lanes and the boundary polygon are not consulted). -/
def checkFireAccess (maxDistance : ℚ) (spaces : List ParkingSpace)
    (lotWidth lotLength : ℚ) : List Violation :=
  spaces.flatMap fun space =>
    let centerX := space.x + space.length / 2
    let centerY := space.y + space.width / 2
    let minDist := min (min centerX (lotWidth - centerX))
      (min centerY (lotLength - centerY))
    if maxDistance < minDist then
      [{ severity := "warning", category := "fire",
         message := "Space " ++ space.label ++ " is too far from nearest access",
         spaceIds := [space.id], location := some (space.x, space.y) }]
    else []

/-! ## Exact rectangle geometry

The point set of geometry.Rectangle.to_polygon over the real plane: the
axis-aligned box of the given size rotated about its own center by the
rotation angle (degrees, counter-clockwise) and translated to the position.
Rotating by zero is the identity, so the conditional rotate of the source is
absorbed into the single formula. -/

/-- An oriented rectangle, mirroring geometry.Rectangle. -/
structure Rect where
  x : ℚ
  y : ℚ
  length : ℚ
  width : ℚ
  rotation : ℚ
  deriving DecidableEq

/-- The exact point set of the oriented rectangle, as produced by
geometry.Rectangle.to_polygon (and, corner for corner, by
models.ParkingSpace.get_corners). -/
def rectSet (r : Rect) : Set (ℝ × ℝ) :=
  { p | ∃ a b : ℝ, 0 ≤ a ∧ a ≤ (r.length : ℝ) ∧ 0 ≤ b ∧ b ≤ (r.width : ℝ) ∧
      p.1 = (r.x : ℝ) + (r.length : ℝ) / 2
            + Real.cos ((r.rotation : ℝ) * Real.pi / 180) * (a - (r.length : ℝ) / 2)
            - Real.sin ((r.rotation : ℝ) * Real.pi / 180) * (b - (r.width : ℝ) / 2) ∧
      p.2 = (r.y : ℝ) + (r.width : ℝ) / 2
            + Real.sin ((r.rotation : ℝ) * Real.pi / 180) * (a - (r.length : ℝ) / 2)
            + Real.cos ((r.rotation : ℝ) * Real.pi / 180) * (b - (r.width : ℝ) / 2) }

/-- The oriented rectangle of a parking space (position, size, rotation). -/
def psRect (s : ParkingSpace) : Rect :=
  { x := s.x, y := s.y, length := s.length, width := s.width,
    rotation := s.rotation }

/-- First space of the spacing counterexample: unrotated 10 by 3 at the
origin. -/
def spaceA : ParkingSpace :=
  { id := 1, type := "truck", x := 0, y := 0, length := 10, width := 3,
    rotation := 0, label := "T-1" }

/-- Second space of the spacing counterexample: 10 by 3 at (8, 0) rotated by
90 degrees, so its true footprint occupies x between 11.5 and 14.5 and is
disjoint from the first space. -/
def spaceB : ParkingSpace :=
  { id := 2, type := "truck", x := 8, y := 0, length := 10, width := 3,
    rotation := 90, label := "T-2" }

/-- C1: the spacing check works on unrotated axis-aligned footprints, not on
the exact rotated rectangles.  On the pair spaceA, spaceB it reports an
error overlap violation although the two exact rectangles are disjoint
(their true footprints are 1.5 apart), refuting the claim that an error is
reported exactly when the rotated rectangles intersect. -/
theorem spacing_check_not_exact :
    (∃ v ∈ checkSpacing 1 [spaceA, spaceB], v.severity = "error") ∧
    rectSet (psRect spaceA) ∩ rectSet (psRect spaceB) = ∅ := by
  constructor
  · norm_num [checkSpacing, checkSpacingAux, orderedPairs, spacingViolations,
      rectanglesOverlapComp, pairKey, spaceA, spaceB]
  · apply Set.eq_empty_iff_forall_not_mem.mpr
    rintro ⟨px, py⟩ ⟨h1, h2⟩
    simp only [rectSet, psRect, spaceA, spaceB, Set.mem_setOf_eq] at h1 h2
    obtain ⟨a, b, _, ha1, _, _, hx1, _⟩ := h1
    obtain ⟨c, d, _, _, _, hd1, hx2, _⟩ := h2
    have h90 : (90 : ℝ) * Real.pi / 180 = Real.pi / 2 := by ring
    push_cast at hx1 hx2 ha1 hd1
    rw [h90, Real.cos_pi_div_two, Real.sin_pi_div_two] at hx2
    simp at hx1
    linarith

/-- The exact region of the square lot boundary with corners (0,0), (30,0),
(30,30), (0,30) used by the boundary counterexample. -/
def lotSquare30 : Set (ℝ × ℝ) :=
  { p | 0 ≤ p.1 ∧ p.1 ≤ 30 ∧ 0 ≤ p.2 ∧ p.2 ≤ 30 }

/-- Space of the boundary counterexample: 10 by 3 at the origin rotated by
90 degrees, whose true footprint reaches y = -3.5, outside the lot. -/
def spaceC : ParkingSpace :=
  { id := 1, type := "truck", x := 0, y := 0, length := 10, width := 3,
    rotation := 90, label := "T-1" }

/-- C2: the boundary check tests only the unrotated axis-aligned footprint
against the lot extents.  On spaceC inside the 30 by 30 square lot it
reports no violation although the exact rotated rectangle is not contained
in the lot boundary polygon, refuting the claim that an error is reported
exactly when the rotated polygon is not covered. -/
theorem boundary_check_not_exact :
    checkBoundary spaceC [(0, 0), (30, 0), (30, 30), (0, 30)] 30 30 = [] ∧
    ¬ rectSet (psRect spaceC) ⊆ lotSquare30 := by
  constructor
  · norm_num [checkBoundary, spaceC]
  · intro hsub
    have h90 : (90 : ℝ) * Real.pi / 180 = Real.pi / 2 := by ring
    have hmem : ((6.5 : ℝ), (-3.5 : ℝ)) ∈ rectSet (psRect spaceC) := by
      simp only [rectSet, psRect, spaceC, Set.mem_setOf_eq]
      refine ⟨0, 0, le_refl 0, by norm_num, le_refl 0, by norm_num, ?_, ?_⟩
      · push_cast
        rw [h90, Real.cos_pi_div_two, Real.sin_pi_div_two]
        norm_num
      · push_cast
        rw [h90, Real.cos_pi_div_two, Real.sin_pi_div_two]
        norm_num
    have hin := hsub hmem
    simp only [lotSquare30, Set.mem_setOf_eq] at hin
    norm_num at hin

/-- The point set of a lane centerline polyline: the union of the segments
between consecutive path points. -/
def pathSet : List (ℚ × ℚ) → Set (ℝ × ℝ)
  | [] => ∅
  | [_] => ∅
  | p :: q :: rest =>
    segment ℝ ((p.1 : ℝ), (p.2 : ℝ)) ((q.1 : ℝ), (q.2 : ℝ)) ∪ pathSet (q :: rest)

/-- Modelled from the spec: a point is farther than distance d from every
lane centerline in the layout when every point of every lane path is at
distance greater than d from it.  This is the lane half of the fire-access
rule of the spec, which the source compliance checker does not consult. -/
def farFromLanes (c : ℝ × ℝ) (lanePaths : List (List (ℚ × ℚ))) (d : ℝ) : Prop :=
  ∀ path ∈ lanePaths, ∀ q ∈ pathSet path, d < dist c q

/-- Space of the fire-access counterexample: its center (20, 20) lies on the
lane centerline from (0, 20) to (40, 20). -/
def spaceD : ParkingSpace :=
  { id := 1, type := "truck", x := 15, y := 18.5, length := 10, width := 3,
    rotation := 0, label := "T-1" }

/-- C3: the fire-access check measures only the distance from the space
center to the four sides of the axis-aligned lot box and never consults the
lanes.  In a 40 by 40 lot, spaceD sits directly on the lane centerline (so
the claim reports no warning), yet the source emits a warning because the
center is 20 from every lot side. -/
theorem fire_access_check_ignores_lanes :
    (∃ v ∈ checkFireAccess 10 [spaceD] 40 40, v.severity = "warning") ∧
    ¬ farFromLanes (20, 20) [[(0, 20), (40, 20)]] 10 := by
  constructor
  · norm_num [checkFireAccess, spaceD]
  · intro h
    have hq : ((20 : ℝ), (20 : ℝ)) ∈ pathSet [(0, 20), (40, 20)] := by
      simp only [pathSet, Set.union_empty, segment, Set.mem_setOf_eq]
      refine ⟨1/2, 1/2, by norm_num, by norm_num, by norm_num, ?_⟩
      norm_num [Prod.ext_iff, Prod.smul_mk, Prod.mk_add_mk, smul_eq_mul]
    have hlt := h [(0, 20), (40, 20)] (by simp) _ hq
    rw [dist_self] at hlt
    norm_num at hlt

/-! ## Selection solver, greedy fallback (src/optimizer.py solve_greedy) -/

/-- A candidate parking space placement, mirroring optimizer.Candidate. -/
structure Candidate where
  id : Int
  type : String
  x : ℚ
  y : ℚ
  length : ℚ
  width : ℚ
  rotation : ℚ
  revenue : ℚ
  deriving DecidableEq

/-- The optimization objective, mirroring optimizer.OptimizationGoal. -/
inductive OptimizationGoal where
  | maximizeRevenue
  | maximizeCount
  | maximizeTrucks
  deriving DecidableEq

/-- The optimization configuration, mirroring optimizer.OptimizationConfig.
The minimum spacing and fire access distance defaults are read by the source
from a data file that is not part of the sources, so all fields are explicit
here.  A vehicle mix is an association list type to (min count, max count). -/
structure OptimizationConfig where
  timeLimit : ℚ
  gridResolution : ℚ
  orientations : List ℚ
  goal : OptimizationGoal
  vehicleMix : Option (List (String × ℤ × ℤ))
  minSpacing : ℚ
  fireAccessDistance : ℚ
  deriving DecidableEq

/-- The candidate at an index (out-of-range indices, which the source never
produces, give a dummy candidate). -/
def candAt (cs : List Candidate) (i : ℕ) : Candidate :=
  cs.getD i { id := 0, type := "", x := 0, y := 0, length := 0, width := 0,
              rotation := 0, revenue := 0 }

/-- One directed insertion into the conflict adjacency dictionary. -/
def addDirected (m : ℕ → List ℕ) (i j : ℕ) : ℕ → List ℕ :=
  fun k => if k = i then j :: m k else m k

/-- The conflict adjacency of solve_greedy: each edge (i, j) registers j as
a neighbor of i and i as a neighbor of j. -/
def conflictMap (conflicts : List (ℕ × ℕ)) : ℕ → List ℕ :=
  conflicts.foldl (fun m p => addDirected (addDirected m p.1 p.2) p.2 p.1)
    (fun _ => [])

/-- The fixed type priorities of the maximize-trucks greedy ordering
(unknown types get priority 5). -/
def typePriority (t : String) : ℕ :=
  if t = "truck" then 0
  else if t = "ev" then 1
  else if t = "tractor" then 2
  else if t = "trailer" then 3
  else if t = "van" then 4
  else 5

/-- The goal-dependent iteration order of solve_greedy: descending revenue
for maximize-revenue, type priority then descending revenue for
maximize-trucks, generation order otherwise. -/
def sortedIndices (cs : List Candidate) (goal : OptimizationGoal) : List ℕ :=
  match goal with
  | .maximizeRevenue =>
    (List.range cs.length).mergeSort
      (fun i j => decide ((candAt cs j).revenue ≤ (candAt cs i).revenue))
  | .maximizeTrucks =>
    (List.range cs.length).mergeSort (fun i j =>
      decide (typePriority (candAt cs i).type < typePriority (candAt cs j).type ∨
        (typePriority (candAt cs i).type = typePriority (candAt cs j).type ∧
          (candAt cs j).revenue ≤ (candAt cs i).revenue)))
  | .maximizeCount => List.range cs.length

/-- The number of already selected candidates of the given type. -/
def countType (cs : List Candidate) (selected : List ℕ) (t : String) : ℕ :=
  (selected.filter (fun j => (candAt cs j).type = t)).length

/-- The vehicle-mix skip test of the greedy pass: the type of candidate i
has a max bound in the mix and the current selection already reaches it. -/
def mixMaxReached (cs : List Candidate) (mix : Option (List (String × ℤ × ℤ)))
    (selected : List ℕ) (i : ℕ) : Bool :=
  match mix with
  | none => false
  | some mixL =>
    match mixL.lookup (candAt cs i).type with
    | none => false
    | some bounds =>
      decide (bounds.2 ≤ (countType cs selected (candAt cs i).type : ℤ))

/-- The greedy selection pass of solve_greedy: iterate the order, skip
excluded candidates and candidates whose type reached its max bound,
otherwise select and exclude all conflict neighbors. -/
def greedyLoop (cs : List Candidate) (cmap : ℕ → List ℕ)
    (mix : Option (List (String × ℤ × ℤ))) :
    List ℕ → List ℕ → List ℕ → List ℕ
  | [], selected, _ => selected
  | i :: rest, selected, excluded =>
    if i ∈ excluded then greedyLoop cs cmap mix rest selected excluded
    else if mixMaxReached cs mix selected i then
      greedyLoop cs cmap mix rest selected excluded
    else greedyLoop cs cmap mix rest (selected ++ [i]) (cmap i ++ excluded)

/-- The selection produced by the greedy pass of solve_greedy. -/
def greedySelection (cs : List Candidate) (conflicts : List (ℕ × ℕ))
    (config : OptimizationConfig) : List ℕ :=
  greedyLoop cs (conflictMap conflicts) config.vehicleMix
    (sortedIndices cs config.goal) [] []

/-- The post-pass minimum check of solve_greedy: some type of the mix has
fewer selected candidates than its min bound. -/
def minUnmet (cs : List Candidate) (mixL : List (String × ℤ × ℤ))
    (selected : List ℕ) : Bool :=
  mixL.any (fun e => decide ((countType cs selected e.1 : ℤ) < e.2.1))

/-- optimizer.solve_greedy: greedy pass, then the minimum-mix validation
returning an empty infeasible result when a min bound is unmet. -/
def solveGreedy (cs : List Candidate) (conflicts : List (ℕ × ℕ))
    (config : OptimizationConfig) : List ℕ × String :=
  let selected := greedySelection cs conflicts config
  match config.vehicleMix with
  | some mixL =>
    if minUnmet cs mixL selected then ([], "infeasible")
    else (selected, "feasible")
  | none => (selected, "feasible")

theorem addDirected_mono {m : ℕ → List ℕ} {i j k x : ℕ} (h : x ∈ m k) :
    x ∈ addDirected m i j k := by
  unfold addDirected
  split <;> simp [h]

theorem addDirected_self (m : ℕ → List ℕ) (i j : ℕ) :
    j ∈ addDirected m i j i := by
  simp [addDirected]

theorem conflictFold_mono {x k : ℕ} :
    ∀ (l : List (ℕ × ℕ)) (m : ℕ → List ℕ), x ∈ m k →
      x ∈ (l.foldl (fun m p => addDirected (addDirected m p.1 p.2) p.2 p.1) m) k
  | [], _, h => h
  | _ :: rest, _, h =>
    conflictFold_mono rest _ (addDirected_mono (addDirected_mono h))

theorem conflictMap_mem {a b : ℕ} :
    ∀ (l : List (ℕ × ℕ)) (m : ℕ → List ℕ), (a, b) ∈ l →
      b ∈ (l.foldl (fun m p => addDirected (addDirected m p.1 p.2) p.2 p.1) m) a ∧
      a ∈ (l.foldl (fun m p => addDirected (addDirected m p.1 p.2) p.2 p.1) m) b := by
  intro l
  induction l with
  | nil => intro m h; cases h
  | cons p rest ih =>
    intro m h
    rcases List.mem_cons.mp h with heq | hrest
    · subst heq
      refine ⟨conflictFold_mono rest _ ?_, conflictFold_mono rest _ ?_⟩
      · exact addDirected_mono (addDirected_self m a b)
      · exact addDirected_self (addDirected m a b) b a
    · exact ih _ hrest

/-- The conflict-freeness invariant of the greedy pass: if every neighbor
of a selected candidate is excluded and the selection is conflict-free, the
loop preserves both. -/
theorem greedyLoop_conflict_free (cs : List Candidate)
    (conflicts : List (ℕ × ℕ))
    (mix : Option (List (String × ℤ × ℤ)))
    (hmap : ∀ a b : ℕ, (a, b) ∈ conflicts →
      b ∈ conflictMap conflicts a ∧ a ∈ conflictMap conflicts b) :
    ∀ (order selected excluded : List ℕ),
      (∀ s ∈ selected, ∀ j ∈ conflictMap conflicts s, j ∈ excluded) →
      (∀ a ∈ selected, ∀ b ∈ selected, a ≠ b → (a, b) ∉ conflicts) →
      ∀ a ∈ greedyLoop cs (conflictMap conflicts) mix order selected excluded,
        ∀ b ∈ greedyLoop cs (conflictMap conflicts) mix order selected excluded,
          a ≠ b → (a, b) ∉ conflicts := by
  intro order
  induction order with
  | nil =>
    intro selected excluded _ hfree
    simpa [greedyLoop] using hfree
  | cons i rest ih =>
    intro selected excluded hexc hfree
    by_cases hmem : i ∈ excluded
    · simpa [greedyLoop, hmem] using ih selected excluded hexc hfree
    · by_cases hskip : mixMaxReached cs mix selected i
      · simpa [greedyLoop, hmem, hskip] using ih selected excluded hexc hfree
      · have hstep :
            greedyLoop cs (conflictMap conflicts) mix (i :: rest) selected excluded
              = greedyLoop cs (conflictMap conflicts) mix rest (selected ++ [i])
                  (conflictMap conflicts i ++ excluded) := by
          simp [greedyLoop, hmem, hskip]
        rw [hstep]
        refine ih (selected ++ [i]) (conflictMap conflicts i ++ excluded) ?_ ?_
        · intro s hs j hj
          rcases List.mem_append.mp hs with hs | hs
          · exact List.mem_append.mpr (Or.inr (hexc s hs j hj))
          · have : s = i := by simpa using hs
            subst this
            exact List.mem_append.mpr (Or.inl hj)
        · intro a ha b hb hne hconf
          rcases List.mem_append.mp ha with ha1 | ha2
          · rcases List.mem_append.mp hb with hb1 | hb2
            · exact hfree a ha1 b hb1 hne hconf
            · have hbi : b = i := by simpa using hb2
              exact hmem (hbi ▸ hexc a ha1 b (hmap a b hconf).1)
          · rcases List.mem_append.mp hb with hb1 | hb2
            · have hai : a = i := by simpa using ha2
              exact hmem (hai ▸ hexc b hb1 a (hmap a b hconf).2)
            · have hai : a = i := by simpa using ha2
              have hbi : b = i := by simpa using hb2
              exact hne (hai.trans hbi.symm)

/-- C5: the greedy fallback selection is always conflict-free: for every
candidate list, conflict edge list and configuration, no two distinct
indices of the returned selection form a conflict edge. -/
theorem greedy_conflict_free (cs : List Candidate) (conflicts : List (ℕ × ℕ))
    (config : OptimizationConfig) :
    ∀ a ∈ (solveGreedy cs conflicts config).1,
      ∀ b ∈ (solveGreedy cs conflicts config).1, a ≠ b → (a, b) ∉ conflicts := by
  have hpass : ∀ a ∈ greedySelection cs conflicts config,
      ∀ b ∈ greedySelection cs conflicts config, a ≠ b → (a, b) ∉ conflicts := by
    apply greedyLoop_conflict_free cs conflicts config.vehicleMix
      (fun a b h => conflictMap_mem conflicts _ h)
    · intro s hs
      cases hs
    · intro a ha
      cases ha
  have hfst : (solveGreedy cs conflicts config).1 = []
      ∨ (solveGreedy cs conflicts config).1 = greedySelection cs conflicts config := by
    unfold solveGreedy
    cases config.vehicleMix with
    | none => simp
    | some mixL => dsimp only; split <;> simp
  rcases hfst with h | h
  · intro a ha
    rw [h] at ha
    cases ha
  · rw [h]
    exact hpass

/-- C5 witness: two conflict-free candidates are both selected and indeed
form no conflict edge. -/
theorem greedy_conflict_free_witness :
    ((0 : ℕ), (1 : ℕ)) ∉ ([] : List (ℕ × ℕ)) :=
  greedy_conflict_free
    [{ id := 1, type := "truck", x := 0, y := 0, length := 10, width := 3,
       rotation := 0, revenue := 0 },
     { id := 2, type := "truck", x := 20, y := 0, length := 10, width := 3,
       rotation := 0, revenue := 0 }]
    []
    { timeLimit := 30, gridResolution := 1/2, orientations := [0, 90],
      goal := .maximizeCount, vehicleMix := none, minSpacing := 1,
      fireAccessDistance := 10 }
    0 (by decide) 1 (by decide) (by decide)

/-- C8: the greedy status is always feasible or infeasible; it is
infeasible exactly when some type of the supplied mix has fewer selected
candidates than its min bound after the pass, and then the returned
selection is empty. -/
theorem greedy_min_check (cs : List Candidate) (conflicts : List (ℕ × ℕ))
    (config : OptimizationConfig) :
    ((solveGreedy cs conflicts config).2 = "feasible"
      ∨ (solveGreedy cs conflicts config).2 = "infeasible") ∧
    ((solveGreedy cs conflicts config).2 = "infeasible" ↔
      ∃ e ∈ config.vehicleMix.getD [],
        (countType cs (greedySelection cs conflicts config) e.1 : ℤ) < e.2.1) ∧
    ((solveGreedy cs conflicts config).2 = "infeasible" →
      (solveGreedy cs conflicts config).1 = []) := by
  have hne : ("feasible" : String) ≠ "infeasible" := by decide
  unfold solveGreedy
  cases config.vehicleMix with
  | none => simp [hne]
  | some mixL =>
    dsimp only [Option.getD]
    by_cases hu : minUnmet cs mixL (greedySelection cs conflicts config)
    · have hex : ∃ e ∈ mixL,
          (countType cs (greedySelection cs conflicts config) e.1 : ℤ) < e.2.1 := by
        simpa [minUnmet, List.any_eq_true] using hu
      simp [hu, hex]
    · have hex : ¬ ∃ e ∈ mixL,
          (countType cs (greedySelection cs conflicts config) e.1 : ℤ) < e.2.1 := by
        simpa [minUnmet, List.any_eq_true] using hu
      simp [hu, hne, hex]

/-- C8 witness: with no candidates and a mix demanding at least one truck,
the greedy solver reports infeasible with an empty selection. -/
theorem greedy_min_check_witness :
    (solveGreedy [] []
      { timeLimit := 30, gridResolution := 1/2, orientations := [0, 90],
        goal := .maximizeCount, vehicleMix := some [("truck", 1, 3)],
        minSpacing := 1, fireAccessDistance := 10 }).1 = [] :=
  (greedy_min_check [] []
    { timeLimit := 30, gridResolution := 1/2, orientations := [0, 90],
      goal := .maximizeCount, vehicleMix := some [("truck", 1, 3)],
      minSpacing := 1, fireAccessDistance := 10 }).2.2 (by decide)

/-! ## Vehicle mix validation and the optimizer entry point
(src/optimizer.py validate_vehicle_mix, optimize_layout;
src/lane_generator.py generate_lanes)

The vehicle type table is loaded by the source from a data file that is not
part of the sources, so it is passed as an explicit association list.  The
stages operating on the real-geometry library (entry and exit validation,
path construction, zone carving, candidate generation and solving) are
passed as function arguments: the two claims settled here concern only the
validation and early-failure paths that run before those stages. -/

/-- Per-type vehicle specification record (fields named by the spec; the
data file holding the concrete values is absent from the sources). -/
structure VehicleSpec where
  defaultLength : ℚ
  defaultWidth : ℚ
  minLength : ℚ
  minWidth : ℚ
  turningRadius : ℚ
  deriving DecidableEq

/-- optimizer.validate_vehicle_mix: unknown types, negative bounds and
min greater than max each contribute an error message. -/
def validateVehicleMix (spaceTypes : List (String × VehicleSpec))
    (mix : Option (List (String × ℤ × ℤ))) : List String :=
  match mix with
  | none => []
  | some mixL =>
    if mixL = [] then []
    else
      mixL.flatMap (fun e =>
        if (spaceTypes.lookup e.1).isNone then
          ["Unknown vehicle type in mix: " ++ e.1]
        else
          (if e.2.1 < 0 ∨ e.2.2 < 0 then
            ["Vehicle mix for " ++ e.1 ++ " cannot be negative"]
          else [])
          ++ (if e.2.2 < e.2.1 then
            ["Vehicle mix for " ++ e.1 ++ " has min greater than max"]
          else []))

/-- Lane configuration, mirroring lane_generator.LaneConfig after
__post_init__ (the recommended widths come from the absent data file, so
the in-code fallback defaults 6 and 8 are used; the buffer is 1 for oneway
and 2 for twoway). -/
structure LaneConfig where
  laneType : String
  width : ℚ
  buffer : ℚ
  deriving DecidableEq

/-- LaneConfig built from a lane type, as optimize_layout does. -/
def mkLaneConfig (laneType : String) : LaneConfig :=
  if laneType = "twoway" then { laneType := laneType, width := 8, buffer := 2 }
  else { laneType := laneType, width := 6, buffer := 1 }

/-- Result of lane generation, mirroring lane_generator.LaneGenerationResult.
The zone and lane polygons live in the geometry library; their type is a
parameter. -/
structure LaneGenerationResult (ζ : Type) where
  lanes : List Lane
  parkingZones : List ζ
  lanePolygons : List ζ
  warnings : List String
  success : Bool

/-- The cyclic cross-product sum of the shoelace area formula, continuing
from the given first point. -/
def shoelaceAux (first : ℚ × ℚ) : List (ℚ × ℚ) → ℚ
  | [] => 0
  | [p] => p.1 * first.2 - first.1 * p.2
  | p :: q :: rest => (p.1 * q.2 - q.1 * p.2) + shoelaceAux first (q :: rest)

/-- The area of a simple polygon given by its coordinate list (the shapely
area of the source, computed by the shoelace formula). -/
def polygonArea : List (ℚ × ℚ) → ℚ
  | [] => 0
  | p :: rest => |shoelaceAux p (p :: rest)| / 2

/-- The early failure value of lane_generator.generate_lanes for an empty
or too small boundary. -/
def laneTooSmallResult (ζ : Type) : LaneGenerationResult ζ :=
  { lanes := [], parkingZones := [], lanePolygons := [],
    warnings := ["Boundary polygon is too small or invalid"],
    success := false }

/-- lane_generator.generate_lanes: an empty or too small boundary (area
under 50) fails immediately with a warning and no zones; otherwise the
remaining stages (point validation, path construction and zone carving,
abstracted as the argument rest) run. -/
def generateLanes {ζ : Type} (boundaryCoords : List (ℚ × ℚ)) (entry : ℚ × ℚ)
    (exitPt : Option (ℚ × ℚ)) (config : LaneConfig)
    (rest : List (ℚ × ℚ) → (ℚ × ℚ) → Option (ℚ × ℚ) → LaneConfig →
      LaneGenerationResult ζ) : LaneGenerationResult ζ :=
  if boundaryCoords = [] ∨ polygonArea boundaryCoords < 50 then
    laneTooSmallResult ζ
  else rest boundaryCoords entry exitPt config

/-- Result of the optimization process, mirroring
optimizer.OptimizationResult (the heterogeneous stats dictionary, filled
only on the successful path, is left to the abstracted final stage). -/
structure OptimizationResult where
  layout : Layout
  status : String
  warnings : List String
  solveTime : ℚ
  deriving DecidableEq

/-- The status of an optimizer outcome (a raised validation error is
reported as exception). -/
def resStatus : Except String OptimizationResult → String
  | .ok r => r.status
  | .error _ => "exception"

/-- The solve time of an optimizer outcome. -/
def resSolveTime : Except String OptimizationResult → ℚ
  | .ok r => r.solveTime
  | .error _ => -1

/-- The spaces of the layout of an optimizer outcome. -/
def resSpaces : Except String OptimizationResult → List ParkingSpace
  | .ok r => r.layout.spaces
  | .error _ => []

/-- The goal string mapping of optimize_layout (unknown strings default to
maximize revenue). -/
def parseGoal (s : String) : OptimizationGoal :=
  if s = "maximize_count" then .maximizeCount
  else if s = "maximize_trucks" then .maximizeTrucks
  else .maximizeRevenue

/-- The bounding box (min x, min y, max x, max y) of a coordinate list
(shapely polygon bounds). -/
def coordsBounds : List (ℚ × ℚ) → ℚ × ℚ × ℚ × ℚ
  | [] => (0, 0, 0, 0)
  | p :: rest =>
    rest.foldl
      (fun acc q =>
        (min acc.1 q.1, min acc.2.1 q.2, max acc.2.2.1 q.1, max acc.2.2.2 q.2))
      (p.1, p.2, p.1, p.2)

/-- The invalid-mix early return of optimize_layout: a default layout (its
__post_init__ supplies the default lot extents and boundary), status
invalid, the validation errors as warnings and zero solve time. -/
def invalidResult (now layoutName : String) (mixErrors : List String) :
    OptimizationResult :=
  { layout := mkLayout now layoutName 74 145 [] [] [] "" "",
    status := "invalid", warnings := mixErrors, solveTime := 0 }

/-- The failed-lane-generation return of optimize_layout. -/
def laneFailResult (now layoutName : String) (lotWidth lotLength : ℚ)
    (laneWarnings : List String) (elapsed : ℚ) : OptimizationResult :=
  { layout := mkLayout now layoutName lotWidth lotLength [] [] [] "" "",
    status := "infeasible",
    warnings := ["Failed to generate lanes: "
      ++ String.intercalate "; " laneWarnings],
    solveTime := elapsed }

/-- optimizer.optimize_layout up to the end of lane generation: boundary
validation (raising, modelled as an error value), vehicle-mix validation
with the invalid early return, then lane generation with the infeasible
early return; the stages from candidate generation onward are the
abstracted argument pipe.  The entry point argument is a well-typed pair,
so the source check that it is a two-coordinate point cannot fire. -/
def mkOptConfig (timeLimit : ℚ) (optimizationGoal : String)
    (orientations : Option (List ℚ))
    (vehicleMix : Option (List (String × ℤ × ℤ))) : OptimizationConfig :=
  { timeLimit := timeLimit, gridResolution := 1/2,
    orientations :=
      match orientations with
      | some os =>
        if os = [] then [0, 90]
        else (os.dedup).mergeSort (fun a b => decide (a ≤ b))
      | none => [0, 90],
    goal := parseGoal optimizationGoal, vehicleMix := vehicleMix,
    minSpacing := 1, fireAccessDistance := 10 }

def optimizeLayout {ζ : Type} (boundary : List (ℚ × ℚ)) (entry : ℚ × ℚ)
    (exitPt : Option (ℚ × ℚ)) (vehicleMix : Option (List (String × ℤ × ℤ)))
    (optimizationGoal : String) (timeLimit : ℚ) (laneType : String)
    (orientations : Option (List ℚ)) (layoutName : String)
    (spaceTypes : List (String × VehicleSpec)) (now : String) (elapsed : ℚ)
    (laneRest : List (ℚ × ℚ) → (ℚ × ℚ) → Option (ℚ × ℚ) → LaneConfig →
      LaneGenerationResult ζ)
    (pipe : OptimizationConfig → LaneGenerationResult ζ → OptimizationResult) :
    Except String OptimizationResult :=
  if boundary = [] ∨ boundary.length < 3 then
    .error "Boundary must contain at least 3 coordinate points"
  else if validateVehicleMix spaceTypes vehicleMix ≠ [] then
    .ok (invalidResult now layoutName (validateVehicleMix spaceTypes vehicleMix))
  else if (generateLanes boundary entry exitPt (mkLaneConfig laneType)
        laneRest).success = false
      ∨ (generateLanes boundary entry exitPt (mkLaneConfig laneType)
          laneRest).parkingZones.isEmpty = true then
    .ok (laneFailResult now layoutName
      ((coordsBounds boundary).2.2.1 - (coordsBounds boundary).1)
      ((coordsBounds boundary).2.2.2 - (coordsBounds boundary).2.1)
      (generateLanes boundary entry exitPt (mkLaneConfig laneType)
        laneRest).warnings elapsed)
  else
    .ok (pipe (mkOptConfig timeLimit optimizationGoal orientations vehicleMix)
      (generateLanes boundary entry exitPt (mkLaneConfig laneType) laneRest))

/-- A bad mix entry (unknown type or min above max) makes the validation
error list nonempty. -/
theorem validateVehicleMix_ne_nil (spaceTypes : List (String × VehicleSpec))
    (mixL : List (String × ℤ × ℤ))
    (hbad : ∃ e ∈ mixL, (spaceTypes.lookup e.1).isNone = true ∨ e.2.2 < e.2.1) :
    validateVehicleMix spaceTypes (some mixL) ≠ [] := by
  obtain ⟨e, hmem, hcase⟩ := hbad
  have hne : mixL ≠ [] := by
    intro h
    rw [h] at hmem
    cases hmem
  intro hnil
  rw [validateVehicleMix, if_neg hne] at hnil
  rcases hcase with hunk | hminmax
  · have : "Unknown vehicle type in mix: " ++ e.1
        ∈ mixL.flatMap (fun e =>
          if (spaceTypes.lookup e.1).isNone then
            ["Unknown vehicle type in mix: " ++ e.1]
          else
            (if e.2.1 < 0 ∨ e.2.2 < 0 then
              ["Vehicle mix for " ++ e.1 ++ " cannot be negative"]
            else [])
            ++ (if e.2.2 < e.2.1 then
              ["Vehicle mix for " ++ e.1 ++ " has min greater than max"]
            else [])) := by
      apply List.mem_flatMap.mpr
      exact ⟨e, hmem, by simp [hunk]⟩
    rw [hnil] at this
    cases this
  · have hknown : ((spaceTypes.lookup e.1).isNone = true) ∨
        ((spaceTypes.lookup e.1).isNone = false) := by
      cases (spaceTypes.lookup e.1).isNone <;> simp
    have : ∃ s, s ∈ mixL.flatMap (fun e =>
          if (spaceTypes.lookup e.1).isNone then
            ["Unknown vehicle type in mix: " ++ e.1]
          else
            (if e.2.1 < 0 ∨ e.2.2 < 0 then
              ["Vehicle mix for " ++ e.1 ++ " cannot be negative"]
            else [])
            ++ (if e.2.2 < e.2.1 then
              ["Vehicle mix for " ++ e.1 ++ " has min greater than max"]
            else [])) := by
      rcases hknown with hk | hk
      · refine ⟨"Unknown vehicle type in mix: " ++ e.1,
          List.mem_flatMap.mpr ⟨e, hmem, ?_⟩⟩
        simp [hk]
      · refine ⟨"Vehicle mix for " ++ e.1 ++ " has min greater than max",
          List.mem_flatMap.mpr ⟨e, hmem, ?_⟩⟩
        simp [hk, hminmax]
    obtain ⟨s, hs⟩ := this
    rw [hnil] at hs
    cases hs

/-- C6: a vehicle mix with min above max for some type, or naming an
unknown type, makes optimize_layout return status invalid with zero solve
time and a layout with no spaces, and the stages after validation are never
consulted (the result does not depend on them). -/
theorem optimize_invalid_mix {ζ : Type} (boundary : List (ℚ × ℚ))
    (entry : ℚ × ℚ) (exitPt : Option (ℚ × ℚ))
    (mixL : List (String × ℤ × ℤ)) (goalStr laneType layoutName now : String)
    (timeLimit elapsed : ℚ) (orientations : Option (List ℚ))
    (spaceTypes : List (String × VehicleSpec))
    (laneRest : List (ℚ × ℚ) → (ℚ × ℚ) → Option (ℚ × ℚ) → LaneConfig →
      LaneGenerationResult ζ)
    (pipe : OptimizationConfig → LaneGenerationResult ζ → OptimizationResult)
    (hb : 3 ≤ boundary.length)
    (hbad : ∃ e ∈ mixL, (spaceTypes.lookup e.1).isNone = true ∨ e.2.2 < e.2.1) :
    resStatus (optimizeLayout boundary entry exitPt (some mixL) goalStr
        timeLimit laneType orientations layoutName spaceTypes now elapsed
        laneRest pipe) = "invalid" ∧
    resSolveTime (optimizeLayout boundary entry exitPt (some mixL) goalStr
        timeLimit laneType orientations layoutName spaceTypes now elapsed
        laneRest pipe) = 0 ∧
    resSpaces (optimizeLayout boundary entry exitPt (some mixL) goalStr
        timeLimit laneType orientations layoutName spaceTypes now elapsed
        laneRest pipe) = [] ∧
    ∀ (laneRest2 : List (ℚ × ℚ) → (ℚ × ℚ) → Option (ℚ × ℚ) → LaneConfig →
        LaneGenerationResult ζ)
      (pipe2 : OptimizationConfig → LaneGenerationResult ζ → OptimizationResult),
      optimizeLayout boundary entry exitPt (some mixL) goalStr timeLimit
          laneType orientations layoutName spaceTypes now elapsed laneRest2 pipe2
        = optimizeLayout boundary entry exitPt (some mixL) goalStr timeLimit
            laneType orientations layoutName spaceTypes now elapsed laneRest pipe := by
  have h1 : ¬ (boundary = [] ∨ boundary.length < 3) := by
    rintro (h | h)
    · rw [h] at hb
      simp at hb
    · omega
  have h2 := validateVehicleMix_ne_nil spaceTypes mixL hbad
  have hval : ∀ (lr : List (ℚ × ℚ) → (ℚ × ℚ) → Option (ℚ × ℚ) → LaneConfig →
        LaneGenerationResult ζ)
      (p : OptimizationConfig → LaneGenerationResult ζ → OptimizationResult),
      optimizeLayout boundary entry exitPt (some mixL) goalStr timeLimit
          laneType orientations layoutName spaceTypes now elapsed lr p
        = .ok (invalidResult now layoutName
            (validateVehicleMix spaceTypes (some mixL))) := by
    intro lr p
    rw [optimizeLayout, if_neg h1, if_pos h2]
  refine ⟨?_, ?_, ?_, ?_⟩
  · rw [hval laneRest pipe]
    rfl
  · rw [hval laneRest pipe]
    rfl
  · rw [hval laneRest pipe]
    rfl
  · intro lr2 p2
    rw [hval laneRest pipe, hval lr2 p2]

/-- C6 witness: a mix demanding between 5 and 3 trucks on a valid triangle
boundary yields status invalid. -/
theorem optimize_invalid_mix_witness :
    resStatus (optimizeLayout (ζ := Unit) [(0, 0), (10, 0), (0, 10)] (0, 0)
      none (some [("truck", 5, 3)]) "maximize_count" 5 "oneway" none "L"
      [("truck", { defaultLength := 37/2, defaultWidth := 7/2, minLength := 15,
                   minWidth := 3, turningRadius := 12 })] "2026-01-01" 0
      (fun _ _ _ _ =>
        { lanes := [], parkingZones := [], lanePolygons := [], warnings := [],
          success := true })
      (fun _ _ =>
        { layout := mkLayout "" "" 0 0 [] [] [] "" "", status := "unknown",
          warnings := [], solveTime := 0 })) = "invalid" :=
  (optimize_invalid_mix [(0, 0), (10, 0), (0, 10)] (0, 0) none
    [("truck", 5, 3)] "maximize_count" "oneway" "L" "2026-01-01" 5 0 none
    [("truck", { defaultLength := 37/2, defaultWidth := 7/2, minLength := 15,
                 minWidth := 3, turningRadius := 12 })]
    (fun _ _ _ _ =>
      { lanes := [], parkingZones := [], lanePolygons := [], warnings := [],
        success := true })
    (fun _ _ =>
      { layout := mkLayout "" "" 0 0 [] [] [] "" "", status := "unknown",
        warnings := [], solveTime := 0 })
    (by decide) (by decide)).1

/-- C7: a boundary polygon of area below 50 makes lane generation fail
immediately with a warning and no parking zones, and makes the optimizer
return status infeasible with a layout containing no spaces. -/
theorem boundary_too_small {ζ : Type} (boundary : List (ℚ × ℚ))
    (entry : ℚ × ℚ) (exitPt : Option (ℚ × ℚ))
    (goalStr laneType layoutName now : String) (timeLimit elapsed : ℚ)
    (orientations : Option (List ℚ))
    (spaceTypes : List (String × VehicleSpec))
    (laneRest : List (ℚ × ℚ) → (ℚ × ℚ) → Option (ℚ × ℚ) → LaneConfig →
      LaneGenerationResult ζ)
    (pipe : OptimizationConfig → LaneGenerationResult ζ → OptimizationResult)
    (hb : 3 ≤ boundary.length) (harea : polygonArea boundary < 50) :
    (generateLanes boundary entry exitPt (mkLaneConfig laneType)
      laneRest).success = false ∧
    (generateLanes boundary entry exitPt (mkLaneConfig laneType)
      laneRest).parkingZones = [] ∧
    (generateLanes boundary entry exitPt (mkLaneConfig laneType)
      laneRest).warnings ≠ [] ∧
    resStatus (optimizeLayout boundary entry exitPt none goalStr timeLimit
      laneType orientations layoutName spaceTypes now elapsed laneRest pipe)
      = "infeasible" ∧
    resSpaces (optimizeLayout boundary entry exitPt none goalStr timeLimit
      laneType orientations layoutName spaceTypes now elapsed laneRest pipe)
      = [] := by
  have h1 : ¬ (boundary = [] ∨ boundary.length < 3) := by
    rintro (h | h)
    · rw [h] at hb
      simp at hb
    · omega
  have hcond : boundary = [] ∨ polygonArea boundary < 50 := Or.inr harea
  have hlane : generateLanes boundary entry exitPt (mkLaneConfig laneType)
      laneRest = laneTooSmallResult ζ := by
    rw [generateLanes, if_pos hcond]
  have h2 : ¬ validateVehicleMix spaceTypes none ≠ [] := by
    simp [validateVehicleMix]
  have hfail : (generateLanes boundary entry exitPt (mkLaneConfig laneType)
        laneRest).success = false
      ∨ (generateLanes boundary entry exitPt (mkLaneConfig laneType)
          laneRest).parkingZones.isEmpty = true := by
    rw [hlane]
    exact Or.inl rfl
  have hopt : optimizeLayout boundary entry exitPt none goalStr timeLimit
      laneType orientations layoutName spaceTypes now elapsed laneRest pipe
      = .ok (laneFailResult now layoutName
          ((coordsBounds boundary).2.2.1 - (coordsBounds boundary).1)
          ((coordsBounds boundary).2.2.2 - (coordsBounds boundary).2.1)
          ["Boundary polygon is too small or invalid"] elapsed) := by
    rw [optimizeLayout, if_neg h1, if_neg h2, if_pos hfail, hlane]
    rfl
  refine ⟨?_, ?_, ?_, ?_, ?_⟩
  · rw [hlane]
    rfl
  · rw [hlane]
    rfl
  · rw [hlane]
    simp [laneTooSmallResult]
  · rw [hopt]
    rfl
  · rw [hopt]
    rfl

/-- C7 witness: a right triangle of area 12.5 fails lane generation, and
the optimizer reports infeasible on it. -/
theorem boundary_too_small_witness :
    resStatus (optimizeLayout (ζ := Unit) [(0, 0), (5, 0), (0, 5)] (0, 0)
      none none "maximize_count" 5 "oneway" none "L" [] "2026-01-01" 0
      (fun _ _ _ _ =>
        { lanes := [], parkingZones := [], lanePolygons := [], warnings := [],
          success := true })
      (fun _ _ =>
        { layout := mkLayout "" "" 0 0 [] [] [] "" "", status := "unknown",
          warnings := [], solveTime := 0 })) = "infeasible" :=
  (boundary_too_small [(0, 0), (5, 0), (0, 5)] (0, 0) none "maximize_count"
    "oneway" "L" "2026-01-01" 5 0 none []
    (fun _ _ _ _ =>
      { lanes := [], parkingZones := [], lanePolygons := [], warnings := [],
        success := true })
    (fun _ _ =>
      { layout := mkLayout "" "" 0 0 [] [] [] "" "", status := "unknown",
        warnings := [], solveTime := 0 })
    (by decide) (by norm_num [polygonArea, shoelaceAux])).2.2.2.1

/-! ## Geometry library semantics and the candidate generator
(src/geometry.py rectangle_in_polygon, rectangles_overlap;
src/optimizer.py generate_candidates)

The polygon values handled by the geometry library are abstract here (type
parameter with an interpretation into point sets of the real plane); the
library operations used by the candidate generator are passed as a record
of functions, constrained in the theorems by their documented set
semantics: a negative buffer is an erosion by a disk, and containment is
point set inclusion. -/

/-- Erosion of a plane set by a closed disk of the given radius: the points
whose whole disk neighborhood lies inside the set (the semantics of a
negative polygon buffer). -/
def erode (A : Set (ℝ × ℝ)) (d : ℝ) : Set (ℝ × ℝ) :=
  { p | ∀ q, dist q p ≤ d → q ∈ A }

/-- Dilation of a plane set by a closed disk of the given radius (the
semantics of a positive polygon buffer). -/
def dilate (A : Set (ℝ × ℝ)) (d : ℝ) : Set (ℝ × ℝ) :=
  { p | ∃ q ∈ A, dist p q ≤ d }

theorem erode_subset (A : Set (ℝ × ℝ)) (d : ℝ) (hd : 0 ≤ d) :
    erode A d ⊆ A :=
  fun p hp => hp p (by simpa [dist_self] using hd)

/-- geometry.rectangles_overlap over the real plane: with a positive
minimum gap each rectangle polygon is buffered outward by half the gap and
the buffered sets are tested for intersection; otherwise the rectangle
polygons themselves are tested. -/
def rectanglesOverlapG (r1 r2 : Rect) (minGap : ℚ) : Prop :=
  if 0 < minGap then
    (dilate (rectSet r1) ((minGap : ℝ) / 2)
      ∩ dilate (rectSet r2) ((minGap : ℝ) / 2)).Nonempty
  else (rectSet r1 ∩ rectSet r2).Nonempty

/-- C10: the geometry-level overlap test is symmetric in its two
rectangles for every minimum gap, so the conflict edge set built from it is
well-defined on unordered pairs. -/
theorem rectangles_overlap_symm (r1 r2 : Rect) (minGap : ℚ) :
    rectanglesOverlapG r1 r2 minGap ↔ rectanglesOverlapG r2 r1 minGap := by
  unfold rectanglesOverlapG
  split_ifs with h
  · rw [Set.inter_comm]
  · rw [Set.inter_comm]

/-- The geometry library operations consumed by the candidate generator,
over an abstract polygon type. -/
structure ShapelyOps (ζ : Type) where
  bufferNeg : ζ → ℚ → ζ
  containsRect : ζ → Rect → Bool
  zoneBounds : ζ → ℚ × ℚ × ℚ × ℚ
  distPointLine : (ℚ × ℚ) → List (ℚ × ℚ) → ℚ
  extDistance : ζ → (ℚ × ℚ) → ℚ

/-- geometry.rectangle_in_polygon: the polygon shrunk by the tolerance
(default 1/100) must contain the rectangle polygon. -/
def rectangleInPolygon {ζ : Type} (S : ShapelyOps ζ) (rect : Rect)
    (polygon : ζ) (tolerance : ℚ := 1/100) : Bool :=
  S.containsRect (S.bufferNeg polygon tolerance) rect

/-- The center of an oriented rectangle (geometry.Rectangle.center). -/
def rectCenter (r : Rect) : ℚ × ℚ :=
  (r.x + r.length / 2, r.y + r.width / 2)

/-- The values visited by a Python loop from lo while at most hi stepping
by step (the source loop terminates exactly when the step is positive,
which the guard of this model makes explicit). -/
def gridRange (lo hi step : ℚ) : List ℚ :=
  if 0 < step ∧ lo ≤ hi then
    (List.range (Int.toNat ⌊(hi - lo) / step⌋ + 1)).map
      (fun i => lo + (i : ℚ) * step)
  else []

/-- The per-type revenue multipliers of optimizer.calculate_space_revenue
(a literal table of the source). -/
def typeMultiplier (t : String) : ℚ :=
  if t = "truck" then 1
  else if t = "tractor" then 7/10
  else if t = "trailer" then 3/5
  else if t = "ev" then 13/10
  else if t = "van" then 1/2
  else 1

/-- optimizer.calculate_space_revenue at the default occupancy 3/4 (the
base annual price comes from the absent data file and is explicit). -/
def calculateSpaceRevenue (pricingAnnual : ℚ) (spaceType : String) : ℚ :=
  pricingAnnual * typeMultiplier spaceType * (3/4)

/-- The acceptance test of generate_candidates for one placement: exact
containment in the zone, reachability from the lane within turning radius
plus length, and fire access from the boundary exterior or the lane. -/
def acceptCandidate {ζ : Type} (S : ShapelyOps ζ) (zone : ζ)
    (lanePath : List (ℚ × ℚ)) (config : OptimizationConfig) (boundary : ζ)
    (spec : VehicleSpec) (rect : Rect) : Bool :=
  rectangleInPolygon S rect zone
    && decide (S.distPointLine (rectCenter rect) lanePath
        ≤ spec.turningRadius + spec.defaultLength)
    && (decide (S.extDistance boundary (rectCenter rect)
          ≤ config.fireAccessDistance)
        || decide (S.distPointLine (rectCenter rect) lanePath
            ≤ config.fireAccessDistance))

/-- optimizer.generate_candidates, keeping each accepted placement paired
with the zone it was generated from: for each zone, each grid position of
its bounding box, each space type (restricted to the mix when one is
supplied) and each orientation, the default-size rectangle is accepted when
the acceptance test holds. -/
def generateCandidatesZ {ζ : Type} (S : ShapelyOps ζ) (parkingZones : List ζ)
    (lanePath : List (ℚ × ℚ)) (config : OptimizationConfig) (boundary : ζ)
    (spaceTypes : List (String × VehicleSpec)) : List (ζ × String × Rect) :=
  let types : List (String × VehicleSpec) :=
    match config.vehicleMix with
    | some mixL => spaceTypes.filter (fun ts => (mixL.lookup ts.1).isSome)
    | none => spaceTypes
  parkingZones.flatMap (fun zone =>
    (gridRange (S.zoneBounds zone).1 (S.zoneBounds zone).2.2.1
        config.gridResolution).flatMap (fun x =>
      (gridRange (S.zoneBounds zone).2.1 (S.zoneBounds zone).2.2.2
          config.gridResolution).flatMap (fun y =>
        types.flatMap (fun ts =>
          config.orientations.filterMap (fun rot =>
            if acceptCandidate S zone lanePath config boundary ts.2
                { x := x, y := y, length := ts.2.defaultLength,
                  width := ts.2.defaultWidth, rotation := rot } then
              some (zone, ts.1,
                ({ x := x, y := y, length := ts.2.defaultLength,
                   width := ts.2.defaultWidth, rotation := rot } : Rect))
            else none)))))

/-- optimizer.generate_candidates: the accepted placements numbered in
generation order, with their revenue weight. -/
def generateCandidates {ζ : Type} (S : ShapelyOps ζ) (parkingZones : List ζ)
    (lanePath : List (ℚ × ℚ)) (config : OptimizationConfig) (boundary : ζ)
    (spaceTypes : List (String × VehicleSpec)) (pricingAnnual : ℚ) :
    List Candidate :=
  (generateCandidatesZ S parkingZones lanePath config boundary
      spaceTypes).enum.map
    (fun e =>
      { id := (e.1 : Int) + 1, type := e.2.2.1, x := e.2.2.2.x, y := e.2.2.2.y,
        length := e.2.2.2.length, width := e.2.2.2.width,
        rotation := e.2.2.2.rotation,
        revenue := calculateSpaceRevenue pricingAnnual e.2.2.1 })

/-- C9: every candidate produced by the candidate generator has its
oriented rectangle fully contained in the parking zone it was generated
from, given the documented semantics of the geometry library: a negative
buffer erodes the polygon region, and containment implies point set
inclusion. -/
theorem candidate_in_zone {ζ : Type} (S : ShapelyOps ζ)
    (interp : ζ → Set (ℝ × ℝ)) (parkingZones : List ζ)
    (lanePath : List (ℚ × ℚ)) (config : OptimizationConfig) (boundary : ζ)
    (spaceTypes : List (String × VehicleSpec))
    (hBuf : ∀ z (t : ℚ), 0 ≤ t →
      interp (S.bufferNeg z t) ⊆ erode (interp z) (t : ℝ))
    (hCont : ∀ z r, S.containsRect z r = true → rectSet r ⊆ interp z)
    (zc : ζ × String × Rect)
    (hmem : zc ∈ generateCandidatesZ S parkingZones lanePath config boundary
      spaceTypes) :
    rectSet zc.2.2 ⊆ interp zc.1 := by
  simp only [generateCandidatesZ, List.mem_flatMap, List.mem_filterMap]
    at hmem
  obtain ⟨zone, hzone, x, hx, y, hy, ts, hts, rot, hrot, hacc⟩ := hmem
  by_cases h : acceptCandidate S zone lanePath config boundary ts.2
      { x := x, y := y, length := ts.2.defaultLength,
        width := ts.2.defaultWidth, rotation := rot }
  · rw [if_pos h] at hacc
    have hzc : zc = (zone, ts.1,
        ({ x := x, y := y, length := ts.2.defaultLength,
           width := ts.2.defaultWidth, rotation := rot } : Rect)) :=
      (Option.some_injective _ hacc).symm
    subst hzc
    have hin : rectangleInPolygon S
        { x := x, y := y, length := ts.2.defaultLength,
          width := ts.2.defaultWidth, rotation := rot } zone = true := by
      have hh := h
      simp only [acceptCandidate, Bool.and_eq_true, Bool.or_eq_true] at hh
      exact hh.1.1
    have hsub1 := hCont _ _ hin
    have hsub2 := hBuf zone (1/100) (by norm_num)
    have hsub3 := erode_subset (interp zone) ((1/100 : ℚ) : ℝ) (by norm_num)
    exact fun p hp => hsub3 (hsub2 (hsub1 hp))
  · rw [if_neg h] at hacc
    cases hacc

/-- C9 witness: with trivial geometry operations whose interpretation is
the whole plane, a concrete candidate is generated and its rectangle is
contained in the interpretation of its zone. -/
theorem candidate_in_zone_witness :
    rectSet ({ x := 0, y := 0, length := 37/2, width := 7/2, rotation := 0 }
      : Rect) ⊆ Set.univ :=
  candidate_in_zone
    { bufferNeg := fun z _ => z, containsRect := fun _ _ => true,
      zoneBounds := fun _ => (0, 0, 0, 0), distPointLine := fun _ _ => 0,
      extDistance := fun _ _ => 0 }
    (fun _ => Set.univ) [()] [(0, 0), (1, 0)]
    { timeLimit := 30, gridResolution := 1/2, orientations := [0],
      goal := .maximizeCount, vehicleMix := none, minSpacing := 1,
      fireAccessDistance := 10 }
    () [("truck", { defaultLength := 37/2, defaultWidth := 7/2,
                    minLength := 15, minWidth := 3, turningRadius := 12 })]
    (by
      intro z t _ p _ q _
      exact Set.mem_univ q)
    (fun _ _ _ => Set.subset_univ _)
    ((), "truck",
      ({ x := 0, y := 0, length := 37/2, width := 7/2, rotation := 0 } : Rect))
    (by
      simp only [generateCandidatesZ, List.mem_flatMap, List.mem_filterMap]
      refine ⟨(), by simp, 0, ?_, 0, ?_,
        ("truck", { defaultLength := 37/2, defaultWidth := 7/2,
                    minLength := 15, minWidth := 3, turningRadius := 12 }),
        by simp, 0, by simp, ?_⟩
      · norm_num [gridRange]
      · norm_num [gridRange]
      · have hacc : acceptCandidate
            { bufferNeg := fun z _ => z, containsRect := fun _ _ => true,
              zoneBounds := fun _ => ((0 : ℚ), (0 : ℚ), (0 : ℚ), (0 : ℚ)),
              distPointLine := fun _ _ => 0, extDistance := fun _ _ => 0 }
            () [(0, 0), (1, 0)]
            { timeLimit := 30, gridResolution := 1/2, orientations := [0],
              goal := .maximizeCount, vehicleMix := none, minSpacing := 1,
              fireAccessDistance := 10 }
            () { defaultLength := 37/2, defaultWidth := 7/2, minLength := 15,
                 minWidth := 3, turningRadius := 12 }
            { x := 0, y := 0, length := 37/2, width := 7/2, rotation := 0 }
            = true := by
          norm_num [acceptCandidate, rectangleInPolygon]
        rw [if_pos hacc])

end TruckParking
